import Mathlib

/-!
Verification of `reporter.py` (City Data Reporter).

The script is shallowly embedded: Python JSON values become the inductive
type `Json`, the five pipeline functions (`get_city_input`, `fetch_weather`,
`parse_weather`, `write_row_to_csv`, `summarize_csv`, `main`) become pure
Lean functions over explicit inputs (stdin lines, the HTTP outcome, the CSV
file contents as a list of rows, a write-success flag).  Python floats are
modelled as exact rationals; this is faithful away from binary-representation
edge cases, none of which the concrete values below touch.
-/

namespace CityReporter

/-- Python/JSON values as produced by `json.loads` (plus the distinction
between Python `int` and `float`, which `json.loads` preserves). -/
inductive Json where
  | jstr (s : String)
  | jint (n : ℤ)
  | jfloat (q : ℚ)
  | jbool (b : Bool)
  | jnull
  | jarr (xs : List Json)
  | jobj (fields : List (String × Json))

/-- Decimal digits of a character list interpreted as a natural number. -/
def digitsVal (ds : List Char) : ℕ :=
  ds.foldl (fun a c => a * 10 + (c.toNat - 48)) 0

/-- Nonempty and all decimal digits. -/
def allDigits (ds : List Char) : Bool :=
  !ds.isEmpty && ds.all Char.isDigit

/-- Python `str.strip()`: drop leading and trailing whitespace (ASCII
whitespace; the extra Unicode space characters Python also strips are not
modelled). -/
def pyStrip (s : String) : String :=
  String.mk
    (((s.toList.dropWhile Char.isWhitespace).reverse.dropWhile
        Char.isWhitespace).reverse)

/-- Optional sign followed by a nonempty run of digits (Python `int(str)`
after stripping; digit-group underscores and non-ASCII digits are not
modelled). -/
def parseSignedDigits (cs : List Char) : Option ℤ :=
  match cs with
  | '-' :: rest => if allDigits rest then some (-(digitsVal rest : ℤ)) else none
  | '+' :: rest => if allDigits rest then some ((digitsVal rest : ℤ)) else none
  | rest => if allDigits rest then some ((digitsVal rest : ℤ)) else none

/-- Python `int(s)` on a string: strip whitespace, optional sign, digits. -/
def intOfStr (s : String) : Option ℤ :=
  parseSignedDigits (pyStrip s).toList

/-- Mantissa of a Python float literal: `digits`, `digits.digits`,
`.digits` or `digits.` (at least one digit overall), returned as an exact
numerator/denominator pair. -/
def parseMantissa (cs : List Char) : Option (ℤ × ℤ) :=
  let p := cs.span (fun c => c != '.')
  match p.2 with
  | [] => if allDigits p.1 then some ((digitsVal p.1 : ℤ), 1) else none
  | _ :: frac =>
    if (p.1.all Char.isDigit && frac.all Char.isDigit)
        && (!p.1.isEmpty || !frac.isEmpty) then
      some ((digitsVal p.1 : ℤ) * (10 : ℤ) ^ frac.length + (digitsVal frac : ℤ),
            (10 : ℤ) ^ frac.length)
    else none

/-- Python `float(s)` on a string: strip whitespace, optional sign, decimal
mantissa, optional `e`/`E` exponent ("inf"/"nan" and digit-group
underscores are not representable here and are not modelled). -/
def floatOfStr (s : String) : Option ℚ :=
  let cs := (pyStrip s).toList
  let sgn : ℤ × List Char :=
    match cs with
    | '-' :: rest => (-1, rest)
    | '+' :: rest => (1, rest)
    | rest => (1, rest)
  let q := sgn.2.span (fun c => c != 'e' && c != 'E')
  match q.2 with
  | [] => (parseMantissa q.1).map (fun m => Rat.divInt (sgn.1 * m.1) m.2)
  | _ :: ex =>
    match parseMantissa q.1, parseSignedDigits ex with
    | some m, some e =>
      if 0 ≤ e then some (Rat.divInt (sgn.1 * m.1 * (10 : ℤ) ^ e.toNat) m.2)
      else some (Rat.divInt (sgn.1 * m.1) (m.2 * (10 : ℤ) ^ (-e).toNat))
    | _, _ => none

/-- Python `float(x)`: accepts int, float, bool and numeric strings;
`TypeError` on anything else is modelled as `none`. -/
def pyFloat : Json → Option ℚ
  | Json.jint n => some (n : ℚ)
  | Json.jfloat q => some q
  | Json.jbool b => some (((if b then 1 else 0 : ℤ)) : ℚ)
  | Json.jstr s => floatOfStr s
  | _ => none

/-- Truncation toward zero, as Python `int(float)`. -/
def truncQ (q : ℚ) : ℤ :=
  Int.tdiv q.num (q.den : ℤ)

/-- Python `int(x)`: ints and bools pass through, floats truncate toward
zero, integer strings parse; `TypeError`/`ValueError` is `none`. -/
def pyInt : Json → Option ℤ
  | Json.jint n => some n
  | Json.jfloat q => some (truncQ q)
  | Json.jbool b => some (if b then 1 else 0)
  | Json.jstr s => intOfStr s
  | _ => none

/-- Floor of a rational, computed on numerator and denominator. -/
def qfloor (q : ℚ) : ℤ :=
  Int.fdiv q.num (q.den : ℤ)

/-- First `fuel` digits of the decimal expansion of `0 ≤ x < 1`, stopping
early when the expansion terminates. -/
def fracDigits : ℕ → ℚ → String
  | 0, _ => ""
  | Nat.succ k, x =>
    if x = 0 then ""
    else
      let d := qfloor (x * 10)
      toString d ++ fracDigits k (x * 10 - (d : ℚ))

/-- Python `repr`/`str` of a float, modelled as the plain decimal expansion
(doubles have terminating expansions; Python's shortest-round-trip
abbreviation is not reproduced, and no claim evaluates this corner). -/
def floatRepr (q : ℚ) : String :=
  let a := if q < 0 then -q else q
  let ip := qfloor a
  let ds := fracDigits 17 (a - (ip : ℚ))
  (if q < 0 then "-" else "") ++ toString ip ++ "." ++ (if ds = "" then "0" else ds)

mutual

/-- Python `repr` of a value (string escaping inside `repr` is not
reproduced; no claim evaluates `repr` on a string-containing container). -/
def pyRepr : Json → String
  | Json.jstr s => "\x27" ++ s ++ "\x27"
  | Json.jint n => toString n
  | Json.jfloat q => floatRepr q
  | Json.jbool b => if b then "True" else "False"
  | Json.jnull => "None"
  | Json.jarr xs => "[" ++ String.intercalate ", " (pyReprList xs) ++ "]"
  | Json.jobj fs => "\x7b" ++ String.intercalate ", " (pyReprFields fs) ++ "\x7d"

/-- Python `repr` of each list element. -/
def pyReprList : List Json → List String
  | [] => []
  | x :: xs => pyRepr x :: pyReprList xs

/-- Python `repr` of each dict entry, as `'key': value`. -/
def pyReprFields : List (String × Json) → List String
  | [] => []
  | (k, v) :: fs => ("\x27" ++ k ++ "\x27: " ++ pyRepr v) :: pyReprFields fs

end

/-- Python `str(x)`: strings are themselves, everything else as `repr`
(which agrees with `str` on ints, floats, bools, `None` and containers). -/
def pyStr : Json → String
  | Json.jstr s => s
  | j => pyRepr j

/-- Python truthiness of a JSON value. -/
def pyTruthy : Json → Bool
  | Json.jstr s => s != ""
  | Json.jint n => n != 0
  | Json.jfloat q => q != 0
  | Json.jbool b => b
  | Json.jnull => false
  | Json.jarr xs => !xs.isEmpty
  | Json.jobj fs => !fs.isEmpty

/-- Python `d[k]` for a string key: only dicts succeed; duplicate JSON keys
resolve to the last occurrence (as in `json.loads`); `KeyError` /
`TypeError` on anything else is modelled as `none`. -/
def jGet : Json → String → Option Json
  | Json.jobj fs, k => fs.reverse.lookup k
  | _, _ => none

/-- Python `x[i]` for a nonnegative integer index: list indexing, plus
string indexing (which yields a one-character string); `IndexError` /
`TypeError` / `KeyError` otherwise is `none`. -/
def jIndex : Json → ℕ → Option Json
  | Json.jarr xs, i => xs.get? i
  | Json.jstr s, i => (s.toList.get? i).map (fun c => Json.jstr (String.mk [c]))
  | _, _ => none

/-- Round `n / d` (with `d > 0`) to the nearest integer, ties to even —
the rounding of Python's fixed-point `format`. -/
def rneZ (n d : ℤ) : ℤ :=
  let q := Int.fdiv n d
  let r := n - q * d
  if 2 * r < d then q
  else if d < 2 * r then q + 1
  else if q % 2 = 0 then q else q + 1

/-- Python `f-string` `:.1f` formatting of a float: round to one decimal
place (ties to even) and print with exactly one fractional digit, keeping
the sign of negative values that round to zero. -/
def formatFixed1 (q : ℚ) : String :=
  let n := rneZ (q.num * 10) (q.den : ℤ)
  let m := n.natAbs
  (if q < 0 then "-" else "") ++ toString (m / 10) ++ "." ++ toString (m % 10)

/-- The flattened record built by `parse_weather`: `City` and `Country` hold
the raw payload values (the source applies no conversion to them), the other
three fields are the formatted strings. -/
structure WeatherRecord where
  city : Json
  country : Json
  temperature : String
  humidity : String
  description : String

/-- Model of `parse_weather(payload)`: the five extractions of the source, each
modelled by the Python-indexing/coercion primitives above; any failure
collapses to the single `RuntimeError` message. -/
def parse_weather (payload : Json) : Except String WeatherRecord :=
  match jGet payload "name",
        (jGet payload "sys").bind (fun s0 => jGet s0 "country"),
        ((jGet payload "main").bind (fun m => jGet m "temp")).bind pyFloat,
        ((jGet payload "main").bind (fun m => jGet m "humidity")).bind pyInt,
        ((jGet payload "weather").bind (fun w => jIndex w 0)).bind
          (fun c0 => jGet c0 "description") with
  | some c, some k, some t, some h, some d =>
    Except.ok ⟨c, k, formatFixed1 t, toString h, pyStr d⟩
  | _, _, _, _, _ => Except.error "API payload missing expected fields."

/-! Weather fetcher (`fetch_weather`). -/

/-- An HTTP response as far as the script observes it: the status code and
the outcome of `resp.json()` (`none` when the body is not valid JSON). -/
structure HttpResp where
  status : ℕ
  body : Option Json

/-- The outcome of the one `requests.get` call: a transport-level
`RequestException` (carrying its description) or a response. -/
inductive Transport where
  | err (msg : String)
  | resp (r : HttpResp)

/-- The error taxonomy of the spec; the source raises `RuntimeError` at six
distinct sites in `fetch_weather`, one per constructor, each carrying its
message string. -/
inductive FetchErr where
  | config (msg : String)
  | network (msg : String)
  | auth (msg : String)
  | notFound (msg : String)
  | api (msg : String)
  | decode (msg : String)

/-- The message carried by a fetch error. -/
def FetchErr.message : FetchErr → String
  | FetchErr.config m => m
  | FetchErr.network m => m
  | FetchErr.auth m => m
  | FetchErr.notFound m => m
  | FetchErr.api m => m
  | FetchErr.decode m => m

/-- The `ConfigError` message of the source. -/
def configMsg : String := "Missing OPENWEATHER_API_KEY. See README for setup."

/-- Model of `requests.Response.ok`: true unless `raise_for_status` would raise,
i.e. unless the status is in `[400, 600)`. -/
def respOk (status : ℕ) : Bool :=
  decide (status < 400) || decide (600 ≤ status)

/-- Model of `resp.json().get("message", "")` under the broad `except` of the
source: any failure (invalid JSON, non-dict JSON) leaves `detail = ""`. -/
def apiDetail (body : Option Json) : Json :=
  match body with
  | some (Json.jobj fs) => (fs.reverse.lookup "message").getD (Json.jstr "")
  | _ => Json.jstr ""

/-- Model of `fetch_weather(city, api_key)` given the transport outcome; the second
component counts network calls actually issued (the credential check happens
before the single `requests.get`). -/
def fetch_weather (city apiKey : String) (t : Transport) :
    Except FetchErr Json × ℕ :=
  if apiKey = "" then (Except.error (FetchErr.config configMsg), 0)
  else
    match t with
    | Transport.err m =>
      (Except.error (FetchErr.network ("Network error: " ++ m)), 1)
    | Transport.resp r =>
      if r.status = 401 then
        (Except.error (FetchErr.auth "Unauthorized (401): invalid API key."), 1)
      else if r.status = 404 then
        (Except.error
          (FetchErr.notFound ("City not found (404): \x27" ++ city ++ "\x27.")), 1)
      else if !respOk r.status then
        let d := apiDetail r.body
        (Except.error
          (FetchErr.api ("OpenWeather error " ++ toString r.status ++ ": " ++
            (if pyTruthy d then pyStr d else "Unexpected error."))), 1)
      else
        match r.body with
        | none => (Except.error (FetchErr.decode "Response was not valid JSON."), 1)
        | some j => (Except.ok j, 1)

/-! CSV writer (`ensure_csv_headers`, `write_row_to_csv`).

The CSV file is modelled as `Option (List (List String))`: `none` is a
missing file, `some rows` its parsed rows (`some []` a zero-length file).
`csv.writer` field quoting is below the abstraction level of the claims. -/

/-- The fixed header row of the source. -/
def csvHeaders : List String :=
  ["City", "Country", "Temperature (C)", "Humidity (%)", "Description"]

/-- Model of `ensure_csv_headers(path)`: a missing or zero-length file is replaced by
one containing just the header row; otherwise the file is untouched. -/
def ensure_csv_headers : Option (List (List String)) → List (List String)
  | none => [csvHeaders]
  | some [] => [csvHeaders]
  | some rows => rows

/-- The CSV data row written for a record: `csv.writer` stringifies the raw
`City`/`Country` values with `str`. -/
def recordRow (r : WeatherRecord) : List String :=
  [pyStr r.city, pyStr r.country, r.temperature, r.humidity, r.description]

/-- Model of `write_row_to_csv(row, path)`: ensure headers, then append one row. -/
def write_row_to_csv (r : WeatherRecord) (file : Option (List (List String))) :
    List (List String) :=
  ensure_csv_headers file ++ [recordRow r]

/-- A whole run sequence of appends, starting from a given file state. -/
def appendAll (rs : List WeatherRecord) (file : Option (List (List String))) :
    Option (List (List String)) :=
  rs.foldl (fun f r => some (write_row_to_csv r f)) file

/-! CSV summarizer (`summarize_csv`). -/

/-- Model of `zip(fieldnames, row)` completed with `restval = None` for the missing
trailing fields, as `csv.DictReader` builds its row dict (`none` models
Python `None`; values beyond the header go to the rest key, which the
summarizer never reads). -/
def zipRestval : List String → List String → List (String × Option String)
  | [], _ => []
  | h :: hs, [] => (h, none) :: zipRestval hs []
  | h :: hs, v :: vs => (h, some v) :: zipRestval hs vs

/-- Model of `r.get(col, dflt)` on a `DictReader` row: absent column gives the
default, a column whose value is the `None` restval prints as `"None"`
inside the f-string; duplicate fieldnames resolve to the last occurrence
(dict semantics), hence the reversed lookup. -/
def dictRowGet (header row : List String) (col dflt : String) : String :=
  match (zipRestval header row).reverse.lookup col with
  | none => dflt
  | some none => "None"
  | some (some v) => v

/-- Model of `summarize_csv(path)`: `none` for a missing file or no data rows,
otherwise the count line followed by one line per data row (`csv` readers
skip blank records, hence the filter). -/
def summarize_csv (file : Option (List (List String))) : Option String :=
  match file with
  | none => none
  | some [] => none
  | some (header :: rest) =>
    let rows := rest.filter (fun r => !r.isEmpty)
    if rows.isEmpty then none
    else
      some (String.intercalate "\n"
        (("Total entries: " ++ toString rows.length) ::
          rows.map (fun r =>
            "- " ++ dictRowGet header r "City" "?" ++ " — " ++
              dictRowGet header r "Temperature (C)" "?" ++ " °C")))

/-! Input collector (`get_city_input`). -/

/-- Model of `get_city_input()` on a list of stdin lines: returns the first line that
is nonempty after stripping, together with the number of
"cannot be empty" reprompt messages printed before it; `none` models
end-of-input (where the real script dies on an uncaught `EOFError`). -/
def get_city_input : List String → Option (String × ℕ)
  | [] => none
  | l :: ls =>
    if pyStrip l ≠ "" then some (pyStrip l, 0)
    else (get_city_input ls).map (fun p => (p.1, p.2 + 1))

/-! Orchestrator (`main`). -/

/-- The whole environment a run observes: stdin lines, the
`OPENWEATHER_API_KEY` value (`""` when absent), the HTTP outcome, the CSV
file state, whether the filesystem append succeeds, the `OSError` text when
it does not, and the absolute path `CSV_PATH.resolve()` prints as. -/
structure Env where
  inputs : List String
  apiKey : String
  transport : Transport
  file : Option (List (List String))
  writeOk : Bool
  writeErrMsg : String
  resolvedCsv : String

/-- What a finished run produced: the printed lines (one entry per `print`
call), the process exit code, and the final CSV file state. -/
structure RunResult where
  output : List String
  exitCode : ℕ
  file : Option (List (List String))

/-- The reprompt message of the input loop. -/
def repromptMsg : String := "City name cannot be empty. Please try again."

/-- The fixed-format report block printed for a parsed record. -/
def reportBlock (r : WeatherRecord) : String :=
  "\nCurrent weather for " ++ pyStr r.city ++ ", " ++ pyStr r.country ++
    ":\n- Temperature: " ++ r.temperature ++ " °C\n- Humidity: " ++
    r.humidity ++ "%\n- Description: " ++ r.description ++ "\n"

/-- The trailing summary prints: `if summary:` is Python truthiness, so
`None` and the empty string both print nothing. -/
def summarySection : Option String → List String
  | none => []
  | some s => if s = "" then [] else ["\nCSV Summary:", s]

/-- Model of `parse_weather(fetch_weather(city, api_key))` as run inside the single
`try` of `main`; both raise `RuntimeError`, so only the message survives. -/
def fetch_then_parse (city apiKey : String) (t : Transport) :
    Except String WeatherRecord :=
  match (fetch_weather city apiKey t).1 with
  | Except.error e => Except.error e.message
  | Except.ok j => parse_weather j

/-- Model of `main()`: collect the city, fetch+parse (printing `[ERROR]` and exiting
with code 1 on failure), print the report, append to the CSV (printing
`[WARNING]` and continuing when the filesystem fails), then summarize.
`none` models end-of-input during the prompt loop. -/
def main (env : Env) : Option RunResult :=
  match get_city_input env.inputs with
  | none => none
  | some (city, n) =>
    let prompts := List.replicate n repromptMsg
    match fetch_then_parse city env.apiKey env.transport with
    | Except.error msg => some ⟨prompts ++ ["[ERROR] " ++ msg], 1, env.file⟩
    | Except.ok data =>
      let file2 := if env.writeOk then some (write_row_to_csv data env.file)
                   else env.file
      let persistOut :=
        if env.writeOk then ["Saved to " ++ env.resolvedCsv]
        else ["[WARNING] Could not write to CSV: " ++ env.writeErrMsg]
      some ⟨prompts ++ [reportBlock data] ++ persistOut ++
              summarySection (summarize_csv file2), 0, file2⟩

/-! Spec-side definitions used for refinement statements. -/

/-- Predicate that `s` contains `t` as a contiguous substring. -/
def strContains (s t : String) : Prop :=
  ∃ a b, s = a ++ t ++ b

/-- Modelled from the spec's words for the summarizer line format: the
row's value for a column, `"?"` when the column is missing from the
header. -/
def specCell (header row : List String) (col : String) : String :=
  match (header.zip row).lookup col with
  | some v => v
  | none => "?"

/-! Concrete fixtures. -/

/-- The well-formed payload of the spec's round-trip property (`18.456` as
the exact rational `2307/125`; the IEEE double for `18.456` differs by less
than `5e-16`, on the same side of the rounding boundary). -/
def parisPayload : Json :=
  Json.jobj [("name", Json.jstr "Paris"),
    ("sys", Json.jobj [("country", Json.jstr "FR")]),
    ("main", Json.jobj [("temp", Json.jfloat (Rat.divInt 18456 1000)),
                        ("humidity", Json.jint 60)]),
    ("weather", Json.jarr [Json.jobj [("description", Json.jstr "clear sky")]])]

/-- A payload whose location name is a number, not a string; every other
field is well formed. -/
def badNamePayload : Json :=
  Json.jobj [("name", Json.jint 42),
    ("sys", Json.jobj [("country", Json.jstr "FR")]),
    ("main", Json.jobj [("temp", Json.jint 18), ("humidity", Json.jint 60)]),
    ("weather", Json.jarr [Json.jobj [("description", Json.jstr "clear sky")]])]

/-- A payload of the standard shape with the temperature and humidity
values left as parameters. -/
def mkPayload (c k d : String) (tj hj : Json) : Json :=
  Json.jobj [("name", Json.jstr c),
    ("sys", Json.jobj [("country", Json.jstr k)]),
    ("main", Json.jobj [("temp", tj), ("humidity", hj)]),
    ("weather", Json.jarr [Json.jobj [("description", Json.jstr d)]])]

/-- The record parsed from `parisPayload`. -/
def parisRecord : WeatherRecord :=
  ⟨Json.jstr "Paris", Json.jstr "FR", "18.5", "60", "clear sky"⟩

/-! Claims. -/

/-- C2: for the payload `{name: "Paris", sys: {country: "FR"},
main: {temp: 18.456, humidity: 60}, weather: [{description: "clear sky"}]}`,
`parse_weather` succeeds and returns exactly
`{City: "Paris", Country: "FR", Temperature (C): "18.5", Humidity (%): "60",
Description: "clear sky"}`: the temperature is rendered with exactly one
(rounded) decimal place and the humidity as an integer's text. -/
theorem c2_parser_round_trip :
    parse_weather parisPayload = Except.ok parisRecord := rfl

/-- C1, counterexample: the claim says `parse` fails with `SchemaError` when
the location name is not a string, but on a payload whose `name` is the
number `42` (all other fields well formed) `parse_weather` succeeds and
returns a record carrying the non-string value. -/
theorem c1_counterexample :
    parse_weather badNamePayload =
      Except.ok ⟨Json.jint 42, Json.jstr "FR", "18.0", "60", "clear sky"⟩ := rfl

/-- C1, amended: `parse_weather` is atomic with the single message
"API payload missing expected fields.": either all five extractions succeed
and the full record is returned — with the location name and country taken
as-is, with no string-type check — or at least one extraction fails (missing
key, wrong-shape container, number not coercible, empty conditions list) and
the whole parse fails with exactly that message and no record. -/
theorem c1_amended_schema_error (payload : Json) :
    (∃ c k t h d,
      jGet payload "name" = some c ∧
      (jGet payload "sys").bind (fun s0 => jGet s0 "country") = some k ∧
      ((jGet payload "main").bind (fun m => jGet m "temp")).bind pyFloat = some t ∧
      ((jGet payload "main").bind (fun m => jGet m "humidity")).bind pyInt = some h ∧
      ((jGet payload "weather").bind (fun w => jIndex w 0)).bind
        (fun c0 => jGet c0 "description") = some d ∧
      parse_weather payload =
        Except.ok ⟨c, k, formatFixed1 t, toString h, pyStr d⟩) ∨
    ((jGet payload "name" = none ∨
      (jGet payload "sys").bind (fun s0 => jGet s0 "country") = none ∨
      ((jGet payload "main").bind (fun m => jGet m "temp")).bind pyFloat = none ∨
      ((jGet payload "main").bind (fun m => jGet m "humidity")).bind pyInt = none ∨
      ((jGet payload "weather").bind (fun w => jIndex w 0)).bind
        (fun c0 => jGet c0 "description") = none) ∧
      parse_weather payload = Except.error "API payload missing expected fields.") := by
  rcases e1 : jGet payload "name" with _ | c <;>
    rcases e2 : (jGet payload "sys").bind (fun s0 => jGet s0 "country") with _ | k <;>
    rcases e3 : ((jGet payload "main").bind (fun m => jGet m "temp")).bind pyFloat
      with _ | t <;>
    rcases e4 : ((jGet payload "main").bind (fun m => jGet m "humidity")).bind pyInt
      with _ | h <;>
    rcases e5 : ((jGet payload "weather").bind (fun w => jIndex w 0)).bind
      (fun c0 => jGet c0 "description") with _ | d <;>
    simp [parse_weather, e1, e2, e3, e4, e5]

/-- C4: fetching with an empty (or absent, which `os.getenv` maps to empty)
credential fails with `ConfigError` whose message references the environment
variable and the README, and issues zero network calls, for every city and
every transport outcome. -/
theorem c4_config_error (city : String) (t : Transport) :
    fetch_weather city "" t = (Except.error (FetchErr.config configMsg), 0) ∧
    strContains configMsg "OPENWEATHER_API_KEY" ∧
    strContains configMsg "README" :=
  ⟨rfl,
   ⟨"Missing ", ". See README for setup.", by decide⟩,
   ⟨"Missing OPENWEATHER_API_KEY. See ", " for setup.", by decide⟩⟩

/-- C3, counterexample: the claim says any non-2xx status other than 401
and 404 fails with `ApiError`, but `requests.Response.ok` is true for every
status below 400, so a 304 response with a JSON body is treated as success
and the payload is returned. -/
theorem c3_counterexample :
    (fetch_weather "Paris" "key" (Transport.resp ⟨304, some Json.jnull⟩)).1 =
      Except.ok Json.jnull := rfl

/-- C3, amended: with a nonempty credential, a 401 response fails with
`AuthError`; a 404 fails with `NotFoundError` whose message contains the
requested city; a status in `[400, 600)` other than 401/404 fails with
`ApiError` whose message contains the numeric status and the body's JSON
"message" text when present and truthy, otherwise "Unexpected error."; any
status outside `[400, 600)` — including non-2xx informational and
redirect statuses — is treated as success: a body that is not valid JSON
then fails with `DecodeError`, and a valid JSON body is returned. -/
theorem c3_amended_status_mapping (city apiKey : String) (st : ℕ)
    (body : Option Json) (hkey : apiKey ≠ "") :
    (st = 401 →
      (fetch_weather city apiKey (Transport.resp ⟨st, body⟩)).1 =
        Except.error (FetchErr.auth "Unauthorized (401): invalid API key.")) ∧
    (st = 404 →
      (fetch_weather city apiKey (Transport.resp ⟨st, body⟩)).1 =
        Except.error (FetchErr.notFound
          ("City not found (404): \x27" ++ city ++ "\x27.")) ∧
      strContains ("City not found (404): \x27" ++ city ++ "\x27.") city) ∧
    (400 ≤ st → st < 600 → st ≠ 401 → st ≠ 404 →
      (fetch_weather city apiKey (Transport.resp ⟨st, body⟩)).1 =
        Except.error (FetchErr.api ("OpenWeather error " ++ toString st ++ ": " ++
          (if pyTruthy (apiDetail body) then pyStr (apiDetail body)
           else "Unexpected error."))) ∧
      strContains ("OpenWeather error " ++ toString st ++ ": " ++
          (if pyTruthy (apiDetail body) then pyStr (apiDetail body)
           else "Unexpected error.")) (toString st)) ∧
    (respOk st = true →
      (body = none →
        (fetch_weather city apiKey (Transport.resp ⟨st, body⟩)).1 =
          Except.error (FetchErr.decode "Response was not valid JSON.")) ∧
      (∀ j, body = some j →
        (fetch_weather city apiKey (Transport.resp ⟨st, body⟩)).1 =
          Except.ok j)) := by
  refine ⟨?_, ?_, ?_, ?_⟩
  · intro h; subst h; simp [fetch_weather, hkey]
  · intro h; subst h
    refine ⟨by simp [fetch_weather, hkey], ?_⟩
    exact ⟨"City not found (404): \x27", "\x27.", by simp [String.append_assoc]⟩
  · intro h4 h6 hn1 hn4
    have hok : respOk st = false := by
      simp [respOk]; omega
    refine ⟨by simp [fetch_weather, hkey, hn1, hn4, hok], ?_⟩
    exact ⟨"OpenWeather error ",
      ": " ++ (if pyTruthy (apiDetail body) then pyStr (apiDetail body)
               else "Unexpected error."),
      by simp [String.append_assoc]⟩
  · intro hok
    have hn1 : st ≠ 401 := by
      intro h; subst h; simp [respOk] at hok
    have hn4 : st ≠ 404 := by
      intro h; subst h; simp [respOk] at hok
    constructor
    · intro hb; subst hb; simp [fetch_weather, hkey, hn1, hn4, hok]
    · intro j hb; subst hb; simp [fetch_weather, hkey, hn1, hn4, hok]

/-- C3 witness: the amended mapping evaluated at a 401, a 404, a 500 with a
JSON "message" body, a 200 non-JSON body and a 200 JSON body. -/
theorem c3_amended_status_mapping_witness :
    (fetch_weather "Paris" "key" (Transport.resp ⟨401, none⟩)).1 =
      Except.error (FetchErr.auth "Unauthorized (401): invalid API key.") ∧
    (fetch_weather "Paris" "key" (Transport.resp ⟨404, none⟩)).1 =
      Except.error (FetchErr.notFound "City not found (404): \x27Paris\x27.") ∧
    (fetch_weather "Paris" "key"
        (Transport.resp ⟨500, some (Json.jobj [("message", Json.jstr "bad key")])⟩)).1 =
      Except.error (FetchErr.api "OpenWeather error 500: bad key") ∧
    (fetch_weather "Paris" "key" (Transport.resp ⟨200, none⟩)).1 =
      Except.error (FetchErr.decode "Response was not valid JSON.") ∧
    (fetch_weather "Paris" "key" (Transport.resp ⟨200, some Json.jnull⟩)).1 =
      Except.ok Json.jnull := by
  refine ⟨?_, ?_, ?_, ?_, ?_⟩
  · exact (c3_amended_status_mapping "Paris" "key" 401 none (by decide)).1 rfl
  · exact ((c3_amended_status_mapping "Paris" "key" 404 none (by decide)).2.1 rfl).1
  · exact (((c3_amended_status_mapping "Paris" "key" 500
      (some (Json.jobj [("message", Json.jstr "bad key")])) (by decide)).2.2.1
      (by norm_num) (by norm_num) (by decide) (by decide)).1).trans (by rfl)
  · exact ((c3_amended_status_mapping "Paris" "key" 200 none (by decide)).2.2.2
      (by decide)).1 rfl
  · exact ((c3_amended_status_mapping "Paris" "key" 200 (some Json.jnull)
      (by decide)).2.2.2 (by decide)).2 Json.jnull rfl

/-- C10, counterexample: the claim quantifies over every non-2xx, non-401,
non-404 response with an empty JSON "message", but at status 304 — non-2xx,
yet below 400, so `requests.Response.ok` is true — the code skips the
`ApiError` branch entirely and returns the body as success. -/
theorem c10_counterexample :
    (fetch_weather "Paris" "key"
        (Transport.resp ⟨304, some (Json.jobj [("message", Json.jstr "")])⟩)).1 =
      Except.ok (Json.jobj [("message", Json.jstr "")]) := rfl

/-- C10, amended: for every status in `[400, 600)` other than 401/404 whose
body is valid JSON containing a "message" field equal to the empty string,
fetch fails with an `ApiError` whose message uses the fallback text
"Unexpected error." — an empty message is treated exactly like an absent
one; statuses outside `[400, 600)` do not reach the `ApiError` branch. -/
theorem c10_empty_message_fallback (city apiKey : String) (st : ℕ)
    (fs : List (String × Json)) (hkey : apiKey ≠ "") (h4 : 400 ≤ st)
    (h6 : st < 600) (hn1 : st ≠ 401) (hn4 : st ≠ 404)
    (hmsg : fs.reverse.lookup "message" = some (Json.jstr "")) :
    (fetch_weather city apiKey (Transport.resp ⟨st, some (Json.jobj fs)⟩)).1 =
      Except.error (FetchErr.api
        ("OpenWeather error " ++ toString st ++ ": Unexpected error.")) := by
  have hok : respOk st = false := by
    simp [respOk]; omega
  simp [fetch_weather, hkey, hn1, hn4, hok, apiDetail, hmsg, pyTruthy]
  rw [String.append_assoc]
  have hfold : (": " ++ "Unexpected error." : String) = ": Unexpected error." := by
    decide
  rw [hfold]

/-- C10 witness: a 500 response whose JSON body carries an empty "message"
falls back to "Unexpected error.". -/
theorem c10_empty_message_fallback_witness :
    (fetch_weather "Paris" "key"
        (Transport.resp ⟨500, some (Json.jobj [("message", Json.jstr "")])⟩)).1 =
      Except.error (FetchErr.api "OpenWeather error 500: Unexpected error.") := by
  exact (c10_empty_message_fallback "Paris" "key" 500 [("message", Json.jstr "")]
    (by decide) (by norm_num) (by norm_num) (by decide) (by decide) rfl).trans (by rfl)

/-- Appending to a file that already starts with some rows extends it by
one data row per record, in order. -/
theorem appendAll_some (rs : List WeatherRecord) :
    ∀ pre : List (List String), pre ≠ [] →
      appendAll rs (some pre) = some (pre ++ rs.map recordRow) := by
  induction rs with
  | nil => intro pre _; simp [appendAll]
  | cons r rs ih =>
    intro pre hpre
    have hens : ensure_csv_headers (some pre) = pre := by
      cases pre with
      | nil => exact absurd rfl hpre
      | cons p ps => rfl
    have hstep : appendAll (r :: rs) (some pre) =
        appendAll rs (some (pre ++ [recordRow r])) := by
      simp [appendAll, write_row_to_csv, hens]
    rw [hstep, ih (pre ++ [recordRow r]) (by simp)]
    simp

/-- C5: starting from a missing or zero-length file, after any nonempty
sequence of appends the CSV log consists of the fixed 5-column header
exactly once as the first line, followed by exactly one data row per append,
in insertion order, each row holding City, Country, Temperature, Humidity
and Description in that fixed column order. -/
theorem c5_csv_invariant (rs : List WeatherRecord)
    (init : Option (List (List String)))
    (hinit : init = none ∨ init = some []) (hne : rs ≠ []) :
    appendAll rs init = some (csvHeaders :: rs.map recordRow) ∧
    csvHeaders.length = 5 := by
  refine ⟨?_, rfl⟩
  cases rs with
  | nil => exact absurd rfl hne
  | cons r rs =>
    have hfirst : appendAll (r :: rs) init =
        appendAll rs (some (csvHeaders :: [recordRow r])) := by
      rcases hinit with h | h <;> subst h <;>
        simp [appendAll, write_row_to_csv, ensure_csv_headers]
    rw [hfirst, appendAll_some rs (csvHeaders :: [recordRow r]) (by simp)]
    simp

/-- C5 witness: one append onto a missing file. -/
theorem c5_csv_invariant_witness :
    appendAll [parisRecord] none =
      some [csvHeaders, ["Paris", "FR", "18.5", "60", "clear sky"]] ∧
    csvHeaders.length = 5 := by
  have h := c5_csv_invariant [parisRecord] none (Or.inl rfl)
    (List.cons_ne_nil _ _)
  exact ⟨h.1.trans (by rfl), h.2⟩

/-- C8: for every input consisting of blank-after-stripping lines followed
by a line that is nonempty after stripping, `get_city_input` returns exactly
that line with surrounding whitespace stripped and prints exactly one
"cannot be empty" reprompt per blank attempt. -/
theorem c8_input_collector (blanks : List String) (s : String)
    (hb : ∀ b ∈ blanks, pyStrip b = "") (hs : pyStrip s ≠ "") :
    get_city_input (blanks ++ [s]) = some (pyStrip s, blanks.length) := by
  induction blanks with
  | nil => simp [get_city_input, hs]
  | cons b bs ih =>
    have hb0 : pyStrip b = "" := hb b (by simp)
    have ih2 := ih (fun x hx => hb x (by simp [hx]))
    simp [get_city_input, hb0, ih2]

/-- C8 witness: two blank attempts then a padded city name. -/
theorem c8_input_collector_witness :
    get_city_input ["", "   ", " Paris "] = some ("Paris", 2) := by
  have h := c8_input_collector ["", "   "] " Paris " (by decide) (by decide)
  exact h.trans (by rfl)

/-- Lemma that `List.lookup` over an append tries the left list first. -/
theorem lookup_append {β : Type} (a : String) (xs ys : List (String × β)) :
    (xs ++ ys).lookup a = ((xs.lookup a).orElse (fun _ => ys.lookup a)) := by
  induction xs with
  | nil => simp
  | cons x xs ih =>
    cases hak : (a == x.1) <;>
      simp [List.lookup, hak, ih]

/-- A key absent from the key column looks up to nothing. -/
theorem lookup_eq_none_of_not_mem {β : Type} (a : String)
    (l : List (String × β)) (h : a ∉ l.map Prod.fst) : l.lookup a = none := by
  induction l with
  | nil => rfl
  | cons x xs ih =>
    have h1 : (a == x.1) = false := by
      have : a ≠ x.1 := by
        intro he; exact h (by simp [he])
      simpa using this
    have h2 : a ∉ xs.map Prod.fst := fun hm => h (by simp [hm])
    simp [List.lookup, h1, ih h2]

/-- With no duplicate keys, looking up in reversed order finds the same
entry: dict construction (last duplicate wins) agrees with first-match
lookup. -/
theorem lookup_reverse_nodup {β : Type} (a : String) (l : List (String × β))
    (hnd : (l.map Prod.fst).Nodup) : l.reverse.lookup a = l.lookup a := by
  induction l with
  | nil => rfl
  | cons x xs ih =>
    rw [List.map_cons, List.nodup_cons] at hnd
    obtain ⟨hx, hnd2⟩ := hnd
    rw [List.reverse_cons, lookup_append, ih hnd2]
    cases hak : (a == x.1)
    · simp only [List.lookup, hak]
      cases hxs : xs.lookup a <;> simp [Option.orElse]
    · have hae : a = x.1 := eq_of_beq hak
      rw [hae, lookup_eq_none_of_not_mem x.1 xs hx]
      simp [List.lookup, Option.orElse]

/-- When the row is at least as long as the header, the restval-completed
zip is the plain zip with every value present. -/
theorem zipRestval_of_le (header row : List String)
    (h : header.length ≤ row.length) :
    zipRestval header row = (header.zip row).map (fun p => (p.1, some p.2)) := by
  induction header generalizing row with
  | nil => simp [zipRestval]
  | cons c hs ih =>
    cases row with
    | nil => simp at h
    | cons v vs =>
      simp [zipRestval, ih vs (by simpa using h)]

/-- Lookup commutes with wrapping every value in `some`. -/
theorem lookup_map_some {β : Type} (a : String) (l : List (String × β)) :
    (l.map (fun p => (p.1, some p.2))).lookup a = (l.lookup a).map some := by
  induction l with
  | nil => rfl
  | cons x xs ih =>
    cases hak : (a == x.1) <;> simp [List.lookup, hak, ih]

/-- On a duplicate-free header and a row long enough, the `DictReader` cell
access of the source equals the spec-side cell: the column's value, or `"?"`
when the column is missing. -/
theorem dictRowGet_eq_specCell (header row : List String) (col : String)
    (hnd : header.Nodup) (hlen : header.length ≤ row.length) :
    dictRowGet header row col "?" = specCell header row col := by
  have hkeys : (header.zip row).map Prod.fst = header :=
    List.map_fst_zip header row hlen
  have hnd2 : ((header.zip row).map Prod.fst).Nodup := by
    rw [hkeys]; exact hnd
  rw [dictRowGet, zipRestval_of_le header row hlen, ← List.map_reverse,
    lookup_map_some, lookup_reverse_nodup col (header.zip row) hnd2, specCell]
  cases (header.zip row).lookup col <;> rfl

/-- C6: `summarize_csv` returns nothing for a missing file, an empty file
or a header-only file; otherwise (no blank records, duplicate-free header,
rows at least header-wide) it returns the multi-line string whose first line
is "Total entries: N" followed by one line per data row formatted
"- City — Temperature °C" in file order, a missing City or Temperature
column rendering as the literal "?". The model is a pure function of the
file contents, so the file is never mutated. -/
theorem c6_summarize :
    summarize_csv none = none ∧
    summarize_csv (some []) = none ∧
    (∀ header, summarize_csv (some [header]) = none) ∧
    (∀ header rows, rows ≠ [] → (∀ r ∈ rows, r ≠ []) → header.Nodup →
      (∀ r ∈ rows, header.length ≤ r.length) →
      summarize_csv (some (header :: rows)) =
        some (String.intercalate "\n"
          (("Total entries: " ++ toString rows.length) ::
            rows.map (fun r =>
              "- " ++ specCell header r "City" ++ " — " ++
                specCell header r "Temperature (C)" ++ " °C")))) := by
  refine ⟨rfl, rfl, fun header => rfl, ?_⟩
  intro header rows hne hblank hnd hlen
  have hfilter : rows.filter (fun r => !r.isEmpty) = rows := by
    refine List.filter_eq_self.mpr ?_
    intro r hr
    simpa using hblank r hr
  have hemp : rows.isEmpty = false := by
    cases rows with
    | nil => exact absurd rfl hne
    | cons r rs => rfl
  rw [summarize_csv]
  simp only [hfilter, hemp, Bool.false_eq_true, if_false]
  have hmap : rows.map (fun r =>
      "- " ++ dictRowGet header r "City" "?" ++ " — " ++
        dictRowGet header r "Temperature (C)" "?" ++ " °C") =
      rows.map (fun r =>
        "- " ++ specCell header r "City" ++ " — " ++
          specCell header r "Temperature (C)" ++ " °C") := by
    refine List.map_congr_left ?_
    intro r hr
    rw [dictRowGet_eq_specCell header r "City" hnd (hlen r hr),
      dictRowGet_eq_specCell header r "Temperature (C)" hnd (hlen r hr)]
  rw [hmap]

/-- C6 witness: the spec's two-row example file. -/
theorem c6_summarize_witness :
    summarize_csv (some [csvHeaders,
        ["Paris", "FR", "18.5", "60", "clear sky"],
        ["Tokyo", "JP", "22.0", "55", "mist"]]) =
      some "Total entries: 2\n- Paris — 18.5 °C\n- Tokyo — 22.0 °C" := by
  have h := c6_summarize.2.2.2 csvHeaders
    [["Paris", "FR", "18.5", "60", "clear sky"],
     ["Tokyo", "JP", "22.0", "55", "mist"]]
    (by simp) (by simp) (by decide) (by decide)
  exact h.trans (by rfl)

/-- C7: once a city is read, any fetch or parse failure prints a single
`[ERROR]`-prefixed line and terminates with exit code 1, before any
reporting, persisting or summarizing output; a filesystem failure while
appending instead prints a `[WARNING]`-prefixed line after the report, does
not abort, still proceeds to summarizing (over the unchanged file) and
completes with exit code 0. -/
theorem c7_error_handling (env : Env) (city : String) (n : ℕ)
    (hin : get_city_input env.inputs = some (city, n)) :
    (∀ msg, fetch_then_parse city env.apiKey env.transport = Except.error msg →
      main env = some ⟨List.replicate n repromptMsg ++ ["[ERROR] " ++ msg],
        1, env.file⟩) ∧
    (∀ data, fetch_then_parse city env.apiKey env.transport = Except.ok data →
      env.writeOk = false →
      main env = some ⟨List.replicate n repromptMsg ++ [reportBlock data] ++
          ["[WARNING] Could not write to CSV: " ++ env.writeErrMsg] ++
          summarySection (summarize_csv env.file), 0, env.file⟩) := by
  constructor
  · intro msg hf
    simp [main, hin, hf]
  · intro data hf hw
    simp [main, hin, hf, hw]

/-- C7 witness: a missing credential aborts with exit code 1 and only the
error line; a failing filesystem write downgrades to a warning, the run
summarizes the (still missing) file and exits 0. -/
theorem c7_error_handling_witness :
    main ⟨["Paris"], "", Transport.resp ⟨200, some Json.jnull⟩, none, true,
        "", "p"⟩ =
      some ⟨["[ERROR] Missing OPENWEATHER_API_KEY. See README for setup."],
        1, none⟩ ∧
    main ⟨["Paris"], "key", Transport.resp ⟨200, some parisPayload⟩, none,
        false, "disk full", "p"⟩ =
      some ⟨[reportBlock parisRecord,
        "[WARNING] Could not write to CSV: disk full"], 0, none⟩ := by
  constructor
  · exact ((c7_error_handling
      ⟨["Paris"], "", Transport.resp ⟨200, some Json.jnull⟩, none, true,
        "", "p"⟩ "Paris" 0 rfl).1 configMsg rfl).trans (by rfl)
  · exact ((c7_error_handling
      ⟨["Paris"], "key", Transport.resp ⟨200, some parisPayload⟩, none,
        false, "disk full", "p"⟩ "Paris" 0 rfl).2 parisRecord rfl rfl).trans
      (by rfl)

/-- C9: `parse_weather` accepts string-typed numerics — for every payload
whose `main.temp` and `main.humidity` are strings that Python's `float`/
`int` conversions accept, parsing succeeds with the converted values — and
a fractional numeric humidity is truncated toward zero, not rounded. -/
theorem c9_string_numerics (c k d s1 s2 : String) (t : ℚ) (h : ℤ) (q : ℚ)
    (h1 : floatOfStr s1 = some t) (h2 : intOfStr s2 = some h) :
    parse_weather (mkPayload c k d (Json.jstr s1) (Json.jstr s2)) =
      Except.ok ⟨Json.jstr c, Json.jstr k, formatFixed1 t, toString h, d⟩ ∧
    parse_weather (mkPayload c k d (Json.jstr s1) (Json.jfloat q)) =
      Except.ok ⟨Json.jstr c, Json.jstr k, formatFixed1 t,
        toString (truncQ q), d⟩ := by
  constructor <;>
    simp [parse_weather, mkPayload, jGet, jIndex, pyFloat, pyInt, pyStr,
      List.lookup, h1, h2]

/-- C9 witness: temperature `"18.5"` and humidity `"60"` parse as strings;
humidity `60.9` truncates to `"60"`. -/
theorem c9_string_numerics_witness :
    parse_weather (mkPayload "Paris" "FR" "clear sky" (Json.jstr "18.5")
        (Json.jstr "60")) = Except.ok parisRecord ∧
    parse_weather (mkPayload "Paris" "FR" "clear sky" (Json.jstr "18.5")
        (Json.jfloat (Rat.divInt 609 10))) = Except.ok parisRecord := by
  have h := c9_string_numerics "Paris" "FR" "clear sky" "18.5" "60"
    (Rat.divInt 37 2) 60 (Rat.divInt 609 10) rfl rfl
  exact ⟨h.1.trans (by rfl), h.2.trans (by rfl)⟩

end CityReporter
